import Mathlib

/-
Shallow embedding of the two orientation-pane render components of
ezmsg-unicorn: src/src/ezmsg/unicorn/orientationpane.js (the
reordered-implicit convention) and its unnamed sibling component (the
axis-angle-corrected convention).  The three.js library operations the
source calls (Quaternion construction with JS default parameters, the
Hamilton product of Quaternion.multiply, setFromAxisAngle, and the
rotation matrix a quaternion denotes, through which
Euler.setFromQuaternion factors) are embedded from their documented
formulas; JS numbers are modelled as real numbers, and reading a missing
array index (JS undefined) as Option.none.
-/

noncomputable section

namespace EzmsgUnicorn

/-- A 3-component vector (three.js Vector3). -/
structure Vector3 where
  x : ℝ
  y : ℝ
  z : ℝ

/-- A quaternion with components in three.js layout (x, y, z, w). -/
structure Quat where
  x : ℝ
  y : ℝ
  z : ℝ
  w : ℝ

/-- three.js `new Quaternion(x, y, z, w)` with JS default parameters: an
argument that is undefined (here `none`, as produced by reading a missing
array index) falls back to the constructor defaults x = 0, y = 0, z = 0,
w = 1. -/
def quatNew (x y z w : Option ℝ) : Quat :=
  ⟨x.getD 0, y.getD 0, z.getD 0, w.getD 1⟩

/-- three.js `a.multiply(b)`, i.e. `multiplyQuaternions(a, b)`: the Hamilton
product a * b.  It writes the result into `a` (modelled by returning the new
value bound to the local variable) and leaves the argument `b` untouched. -/
def Quat.multiply (a b : Quat) : Quat :=
  ⟨a.x * b.w + a.w * b.x + a.y * b.z - a.z * b.y,
   a.y * b.w + a.w * b.y + a.z * b.x - a.x * b.z,
   a.z * b.w + a.w * b.z + a.x * b.y - a.y * b.x,
   a.w * b.w - a.x * b.x - a.y * b.y - a.z * b.z⟩

/-- three.js `Quaternion.setFromAxisAngle(axis, angle)` (axis assumed
normalized): components (axis * sin(angle/2), cos(angle/2)). -/
def Quat.setFromAxisAngle (axis : Vector3) (angle : ℝ) : Quat :=
  ⟨axis.x * Real.sin (angle / 2), axis.y * Real.sin (angle / 2),
   axis.z * Real.sin (angle / 2), Real.cos (angle / 2)⟩

/-- The correction quaternion of the axis-angle-corrected component:
`ref_quat.setFromAxisAngle(new THREE.Vector3(0, 1, 0), Math.PI)` — a 180°
rotation about the vertical (Y) axis. -/
def ref_quat : Quat := Quat.setFromAxisAngle ⟨0, 1, 0⟩ Real.pi

/-- A 3 x 3 rotation matrix, row major. -/
structure Mat3 where
  m11 : ℝ
  m12 : ℝ
  m13 : ℝ
  m21 : ℝ
  m22 : ℝ
  m23 : ℝ
  m31 : ℝ
  m32 : ℝ
  m33 : ℝ

/-- The rotation matrix a quaternion denotes, exactly as three.js
`Matrix4.makeRotationFromQuaternion` computes it (the rotation block of
`Matrix4.compose`).  `mesh.rotation.setFromQuaternion(q)` in the handlers is
`Euler.setFromQuaternion`, which builds this matrix and extracts Euler angles
from it, so the mesh rotation state is modelled by this matrix: two
quaternions set the same mesh rotation iff they denote the same matrix. -/
def makeRotationFromQuaternion (q : Quat) : Mat3 :=
  ⟨1 - (q.y * (q.y + q.y) + q.z * (q.z + q.z)),
   q.x * (q.y + q.y) - q.w * (q.z + q.z),
   q.x * (q.z + q.z) + q.w * (q.y + q.y),
   q.x * (q.y + q.y) + q.w * (q.z + q.z),
   1 - (q.x * (q.x + q.x) + q.z * (q.z + q.z)),
   q.y * (q.z + q.z) - q.w * (q.x + q.x),
   q.x * (q.z + q.z) - q.w * (q.y + q.y),
   q.y * (q.z + q.z) + q.w * (q.x + q.x),
   1 - (q.x * (q.x + q.x) + q.y * (q.y + q.y))⟩

/-- The identity rotation: the rotation matrix of a fresh mesh, whose
three.js default rotation is Euler(0, 0, 0). -/
def identityMat3 : Mat3 := ⟨1, 0, 0, 0, 1, 0, 0, 0, 1⟩

/-- The two render components of the repository. -/
inductive Pane where
  | axisAngleCorrected
  | reorderedImplicit

/-- The perspective camera as each component configures it:
`new THREE.PerspectiveCamera(70, width / height, 0.01, 10)`, a position
offset, and `camera.lookAt(new THREE.Vector3(0, 0, 0))`. -/
structure Camera where
  fov : ℝ
  aspect : ℝ
  near : ℝ
  far : ℝ
  position : Vector3
  lookTarget : Vector3

/-- The WebGL renderer configuration each component builds:
`{antialias: true, alpha: true}`, `setSize(width, height)`,
`setClearColor(0xffffff, 0)`. -/
structure Renderer where
  antialias : Bool
  alpha : Bool
  width : ℝ
  height : ℝ
  clearColor : ℕ
  clearAlpha : ℝ

/-- The mutable state a mounted pane owns: the scene handle (camera, box
geometry, renderer, the optional correction quaternion variable) together
with the mesh rotation, plus the ordered log of render calls issued so far,
each recording the mesh rotation in effect when it was drawn. -/
structure PaneState where
  camera : Camera
  boxSize : Vector3
  renderer : Renderer
  refQuat : Option Quat
  meshRotation : Mat3
  renders : List Mat3

/-- The camera position set at mount: `camera.position.x = -0.3` in the
axis-angle-corrected component, `camera.position.y = -0.3` in the
reordered-implicit one (remaining components keep the three.js default 0). -/
def cameraPosition (p : Pane) : Vector3 :=
  match p with
  | .axisAngleCorrected => ⟨-0.3, 0, 0⟩
  | .reorderedImplicit => ⟨0, -0.3, 0⟩

/-- The correction-quaternion variable created at mount: present (and equal
to `ref_quat`) only in the axis-angle-corrected component; the
reordered-implicit component's `ref_quat` lines are commented out. -/
def mountRefQuat (p : Pane) : Option Quat :=
  match p with
  | .axisAngleCorrected => some ref_quat
  | .reorderedImplicit => none

/-- Scene construction (the body of `render({model, el})` up to the
subscription), followed by the single initial `renderer.render(scene,
camera)` issued at the end of mount with the mesh still at its default
rotation. -/
def mount (p : Pane) (width height : ℝ) : PaneState :=
  { camera := { fov := 70, aspect := width / height, near := 0.01, far := 10,
                position := cameraPosition p, lookTarget := ⟨0, 0, 0⟩ },
    boxSize := ⟨0.2, 0.2, 0.2⟩,
    renderer := { antialias := true, alpha := true, width := width,
                  height := height, clearColor := 0xffffff, clearAlpha := 0 },
    refQuat := mountRefQuat p,
    meshRotation := identityMat3,
    renders := [identityMat3] }

/-- The quaternion the orientation handler builds from the current sample
`o = model.orientation`: the axis-angle-corrected component constructs
`new Quaternion(o[0], o[1], o[2], o[3])` and post-multiplies the correction
quaternion; the reordered-implicit component constructs
`new Quaternion(o[1], o[2], o[3], o[0])` with no correction. -/
def handlerQuat (p : Pane) (rq : Option Quat) (o : List ℝ) : Quat :=
  match p with
  | .axisAngleCorrected =>
      (quatNew o[0]? o[1]? o[2]? o[3]?).multiply (rq.getD ⟨0, 0, 0, 1⟩)
  | .reorderedImplicit => quatNew o[1]? o[2]? o[3]? o[0]?

/-- One run of the `model.on('orientation', ...)` handler with current
sample `o`: build the quaternion, assign the mesh rotation from it
(absolute, replacing the previous rotation), and issue exactly one
`renderer.render(scene, camera)`. -/
def notifyStep (p : Pane) (st : PaneState) (o : List ℝ) : PaneState :=
  let rot := makeRotationFromQuaternion (handlerQuat p st.refQuat o)
  { st with meshRotation := rot, renders := st.renders ++ [rot] }

/-- The rotation a sample is mapped to by a pane whose correction variable
holds its mount-time value (which the handler never changes). -/
def mappedRotation (p : Pane) (o : List ℝ) : Mat3 :=
  makeRotationFromQuaternion (handlerQuat p (mountRefQuat p) o)

/-- Mount a pane, then deliver the given orientation notifications in
order, the handler running synchronously for each. -/
def run (p : Pane) (width height : ℝ) (notifs : List (List ℝ)) : PaneState :=
  notifs.foldl (notifyStep p) (mount p width height)

theorem ref_quat_eq : ref_quat = ⟨0, 1, 0, 0⟩ := by
  simp [ref_quat, Quat.setFromAxisAngle, Real.sin_pi_div_two, Real.cos_pi_div_two]

theorem notifyStep_refQuat (p : Pane) (st : PaneState) (o : List ℝ) :
    (notifyStep p st o).refQuat = st.refQuat := rfl

theorem foldl_refQuat (p : Pane) (l : List (List ℝ)) (st : PaneState) :
    (l.foldl (notifyStep p) st).refQuat = st.refQuat := by
  induction l generalizing st with
  | nil => rfl
  | cons o l ih => simpa [List.foldl] using ih (notifyStep p st o)

theorem run_refQuat (p : Pane) (width height : ℝ) (notifs : List (List ℝ)) :
    (run p width height notifs).refQuat = mountRefQuat p := by
  simpa [run] using foldl_refQuat p notifs (mount p width height)

theorem foldl_renders (p : Pane) (l : List (List ℝ)) (st : PaneState)
    (hst : st.refQuat = mountRefQuat p) :
    (l.foldl (notifyStep p) st).renders = st.renders ++ l.map (mappedRotation p) := by
  induction l generalizing st with
  | nil => simp
  | cons o l ih =>
      have hstep : (notifyStep p st o).refQuat = mountRefQuat p := by
        rw [notifyStep_refQuat]; exact hst
      calc (List.foldl (notifyStep p) st (o :: l)).renders
          = (notifyStep p st o).renders ++ l.map (mappedRotation p) :=
            ih (notifyStep p st o) hstep
        _ = (st.renders ++ [mappedRotation p o]) ++ l.map (mappedRotation p) := by
            simp [notifyStep, mappedRotation, hst]
        _ = st.renders ++ (o :: l).map (mappedRotation p) := by simp

theorem run_renders (p : Pane) (width height : ℝ) (notifs : List (List ℝ)) :
    (run p width height notifs).renders
      = identityMat3 :: notifs.map (mappedRotation p) := by
  have h := foldl_renders p notifs (mount p width height) rfl
  simpa [run, mount] using h

/-- Claim C1: in the axis-angle-corrected component, the orientation handler
sets the mesh rotation to the rotation of the quaternion
(x = o[0], y = o[1], z = o[2], w = o[3]) post-multiplied (Hamilton product on
the right) by the fixed correction quaternion, the 180° rotation about the
vertical Y axis, whatever notifications were delivered before. -/
theorem corrected_handler_postmultiplies_y180 (width height : ℝ)
    (prev : List (List ℝ)) (a b c d : ℝ) :
    (notifyStep .axisAngleCorrected (run .axisAngleCorrected width height prev)
        [a, b, c, d]).meshRotation
      = makeRotationFromQuaternion
          (Quat.multiply ⟨a, b, c, d⟩ (Quat.setFromAxisAngle ⟨0, 1, 0⟩ Real.pi)) := by
  have h := run_refQuat .axisAngleCorrected width height prev
  simp [notifyStep, handlerQuat, quatNew, h, mountRefQuat, ref_quat]

/-- Claim C2: in the reordered-implicit component, the orientation handler
sets the mesh rotation to the rotation of the quaternion
(x = o[1], y = o[2], z = o[3], w = o[0]) — the scalar term moved from the
first to the last slot — with no correction quaternion composed. -/
theorem reordered_handler_moves_scalar_last (width height : ℝ)
    (prev : List (List ℝ)) (a b c d : ℝ) :
    (notifyStep .reorderedImplicit (run .reorderedImplicit width height prev)
        [a, b, c, d]).meshRotation
      = makeRotationFromQuaternion ⟨b, c, d, a⟩ := by
  simp [notifyStep, handlerQuat, quatNew]

/-- Claim C3, counterexample: under the reordered-implicit convention the
sample (0, 0, 0, 1) does not map to the identity rotation — the handler
builds the quaternion (x=0, y=0, z=1, w=0), a 180° rotation about Z. -/
theorem identity_sample_not_identity_reordered :
    (notifyStep .reorderedImplicit (mount .reorderedImplicit 640 480)
        [0, 0, 0, 1]).meshRotation ≠ identityMat3 := by
  intro h
  have h11 := congrArg Mat3.m11 h
  simp [notifyStep, handlerQuat, quatNew, makeRotationFromQuaternion,
    identityMat3] at h11
  norm_num at h11

/-- Claim C3, amended: the sample (0, 0, 0, 1) maps under the
axis-angle-corrected convention to the rotation of the correction quaternion
itself; under the reordered-implicit convention it maps to the rotation of
the quaternion (0, 0, 1, 0) — a 180° rotation about Z, not the identity; the
sample that maps to the identity rotation under reordered-implicit is
(1, 0, 0, 0). -/
theorem identity_sample_behaviour :
    (notifyStep .axisAngleCorrected (mount .axisAngleCorrected 640 480)
        [0, 0, 0, 1]).meshRotation = makeRotationFromQuaternion ref_quat
    ∧ (notifyStep .reorderedImplicit (mount .reorderedImplicit 640 480)
        [0, 0, 0, 1]).meshRotation = makeRotationFromQuaternion ⟨0, 0, 1, 0⟩
    ∧ (notifyStep .reorderedImplicit (mount .reorderedImplicit 640 480)
        [1, 0, 0, 0]).meshRotation = identityMat3 := by
  refine ⟨?_, ?_, ?_⟩
  · simp [notifyStep, handlerQuat, quatNew, mount, mountRefQuat, ref_quat_eq,
      Quat.multiply, makeRotationFromQuaternion]
  · simp [notifyStep, handlerQuat, quatNew, mount, mountRefQuat]
  · simp [notifyStep, handlerQuat, quatNew, mount, mountRefQuat,
      makeRotationFromQuaternion, identityMat3]

/-- Claim C4: delivering N orientation notifications after mount issues
exactly N render calls beyond the single initial one, one per notification,
in arrival order, the i-th using the rotation mapped from the sample current
at the i-th handler invocation, with no coalescing or reordering. -/
theorem renders_one_per_notification (p : Pane) (width height : ℝ)
    (notifs : List (List ℝ)) :
    (run p width height notifs).renders
        = identityMat3 :: notifs.map (mappedRotation p)
    ∧ (run p width height notifs).renders.length = notifs.length + 1 := by
  refine ⟨run_renders p width height notifs, ?_⟩
  rw [run_renders p width height notifs]
  simp

/-- Claim C5: immediately after scene construction, before any orientation
notification has been handled, exactly one render call has been issued, and
it used the mesh's default identity rotation. -/
theorem initial_render_identity (p : Pane) (width height : ℝ) :
    (mount p width height).renders = [identityMat3]
    ∧ (mount p width height).meshRotation = identityMat3 := ⟨rfl, rfl⟩

/-- Claim C6: the handler assigns an absolute rotation computed only from
the current sample (and the fixed correction variable), replacing the
previous mesh rotation rather than accumulating onto it; running it twice
with the same current sample yields the same mesh rotation both times. -/
theorem handler_rotation_absolute (p : Pane) (st : PaneState) (o : List ℝ) :
    (notifyStep p (notifyStep p st o) o).meshRotation
        = (notifyStep p st o).meshRotation
    ∧ (notifyStep p st o).meshRotation
        = makeRotationFromQuaternion (handlerQuat p st.refQuat o) := ⟨rfl, rfl⟩

/-- Claim C7, counterexample: after a good sample (1, 0, 0, 0) the
reordered-implicit mesh rotation is the identity, but a subsequent malformed
3-component sample (0, 1, 0) changes the mesh rotation — the missing fourth
component is read as undefined, the quaternion constructor defaults it, and
the mesh is set from the incomplete sample instead of keeping the prior
rotation. -/
theorem malformed_sample_changes_rotation :
    (notifyStep .reorderedImplicit
        (notifyStep .reorderedImplicit (mount .reorderedImplicit 640 480)
          [1, 0, 0, 0]) [0, 1, 0]).meshRotation
      ≠ (notifyStep .reorderedImplicit (mount .reorderedImplicit 640 480)
          [1, 0, 0, 0]).meshRotation := by
  intro h
  have h22 := congrArg Mat3.m22 h
  simp [notifyStep, handlerQuat, quatNew, mount, mountRefQuat,
    makeRotationFromQuaternion] at h22
  norm_num at h22

/-- Claim C7, amended: on a 3-component sample the handler does not throw
— it still computes a rotation and issues one render — but the mesh does
not keep its prior rotation: the missing fourth component reads as
undefined and the quaternion constructor defaults it (z to 0 in the
reordered-implicit component, w to 1 in the axis-angle-corrected one), so
the mesh rotation is set from the defaulted incomplete sample. -/
theorem malformed_sample_defaulted (p : Pane) (st : PaneState) (x y z : ℝ) :
    (notifyStep p st [x, y, z]).meshRotation
        = makeRotationFromQuaternion (handlerQuat p st.refQuat [x, y, z])
    ∧ (notifyStep p st [x, y, z]).renders
        = st.renders ++ [(notifyStep p st [x, y, z]).meshRotation]
    ∧ handlerQuat .reorderedImplicit st.refQuat [x, y, z] = ⟨y, z, 0, x⟩
    ∧ handlerQuat .axisAngleCorrected (some ref_quat) [x, y, z]
        = Quat.multiply ⟨x, y, z, 1⟩ ref_quat := by
  refine ⟨rfl, rfl, ?_, ?_⟩
  · simp [handlerQuat, quatNew]
  · simp [handlerQuat, quatNew]

/-- Claim C8: for every (width, height), both components build a perspective
camera with fov 70, aspect width/height, near 0.01, far 10, offset −0.3
along the X axis (axis-angle-corrected) or the Y axis (reordered-implicit),
looking at the origin, a 0.2-side cuboid mesh, and a renderer sized to
(width, height) with antialiasing and a transparent clear color. -/
theorem scene_construction (width height : ℝ) :
    (mount .axisAngleCorrected width height).camera
        = ⟨70, width / height, 0.01, 10, ⟨-0.3, 0, 0⟩, ⟨0, 0, 0⟩⟩
    ∧ (mount .reorderedImplicit width height).camera
        = ⟨70, width / height, 0.01, 10, ⟨0, -0.3, 0⟩, ⟨0, 0, 0⟩⟩
    ∧ (∀ p : Pane, (mount p width height).boxSize = ⟨0.2, 0.2, 0.2⟩)
    ∧ ∀ p : Pane, (mount p width height).renderer
        = ⟨true, true, width, height, 0xffffff, 0⟩ := by
  refine ⟨rfl, rfl, fun p => rfl, fun p => rfl⟩

/-- Claim C9: in the axis-angle-corrected component the correction
quaternion is constructed once at mount — it still holds the 180°-about-Y
value after any sequence of notifications — every handler run leaves it
unchanged, and each notification composes the freshly built sample
quaternion with that identical fixed value. -/
theorem ref_quat_immutable (width height : ℝ) (notifs : List (List ℝ))
    (st : PaneState) (o : List ℝ) :
    (run .axisAngleCorrected width height notifs).refQuat
        = some (Quat.setFromAxisAngle ⟨0, 1, 0⟩ Real.pi)
    ∧ (notifyStep .axisAngleCorrected st o).refQuat = st.refQuat
    ∧ (notifyStep .axisAngleCorrected
          (run .axisAngleCorrected width height notifs) o).meshRotation
        = makeRotationFromQuaternion
            (Quat.multiply (quatNew o[0]? o[1]? o[2]? o[3]?) ref_quat) := by
  refine ⟨?_, rfl, ?_⟩
  · rw [run_refQuat]; rfl
  · have h := run_refQuat .axisAngleCorrected width height notifs
    simp [notifyStep, handlerQuat, h, mountRefQuat]

/-- Claim C10: each run of the orientation handler changes only the mesh
rotation and appends exactly one render: the camera, the box geometry, the
renderer configuration, and the correction quaternion variable are all
unchanged, in both components. -/
theorem handler_touches_only_rotation (p : Pane) (st : PaneState) (o : List ℝ) :
    (notifyStep p st o).camera = st.camera
    ∧ (notifyStep p st o).boxSize = st.boxSize
    ∧ (notifyStep p st o).renderer = st.renderer
    ∧ (notifyStep p st o).refQuat = st.refQuat
    ∧ (notifyStep p st o).renders
        = st.renders ++ [(notifyStep p st o).meshRotation] := by
  exact ⟨rfl, rfl, rfl, rfl, rfl⟩

end EzmsgUnicorn
